import Mathlib

/-!
Verification of the resume-screener caching core: a shallow embedding of
`src/backend/cache_manager.py`, `src/backend/app.py` and `src/screener.py`.

Machine words are `Nat` reduced mod 2^32 where the hash primitive would
overflow; bytes are `Nat` (values < 256 in all reachable states); the
Supabase store is an association list, and every fallible external call
(store operation, JSON decoding, oracle invocation) is an `Except` value
supplied as a parameter.
-/

set_option maxRecDepth 4000

namespace SHA256

/-- Reduce a natural number to a 32-bit word, matching the `hashlib` arithmetic. -/
def w32 (n : Nat) : Nat := n % 4294967296

/-- 32-bit right rotation. -/
def rotr (n x : Nat) : Nat := w32 ((x >>> n) ||| (x <<< (32 - n)))

/-- The 64 SHA-256 round constants (FIPS 180-4), written in decimal. -/
def K : List Nat :=
  [1116352408, 1899447441, 3049323471, 3921009573,
   961987163, 1508970993, 2453635748, 2870763221,
   3624381080, 310598401, 607225278, 1426881987,
   1925078388, 2162078206, 2614888103, 3248222580,
   3835390401, 4022224774, 264347078, 604807628,
   770255983, 1249150122, 1555081692, 1996064986,
   2554220882, 2821834349, 2952996808, 3210313671,
   3336571891, 3584528711, 113926993, 338241895,
   666307205, 773529912, 1294757372, 1396182291,
   1695183700, 1986661051, 2177026350, 2456956037,
   2730485921, 2820302411, 3259730800, 3345764771,
   3516065817, 3600352804, 4094571909, 275423344,
   430227734, 506948616, 659060556, 883997877,
   958139571, 1322822218, 1537002063, 1747873779,
   1955562222, 2024104815, 2227730452, 2361852424,
   2428436474, 2756734187, 3204031479, 3329325298]

def ch (x y z : Nat) : Nat := (x &&& y) ^^^ ((x ^^^ 0xffffffff) &&& z)

def maj (x y z : Nat) : Nat := (x &&& y) ^^^ (x &&& z) ^^^ (y &&& z)

def bigS0 (x : Nat) : Nat := rotr 2 x ^^^ rotr 13 x ^^^ rotr 22 x

def bigS1 (x : Nat) : Nat := rotr 6 x ^^^ rotr 11 x ^^^ rotr 25 x

def smallS0 (x : Nat) : Nat := rotr 7 x ^^^ rotr 18 x ^^^ (x >>> 3)

def smallS1 (x : Nat) : Nat := rotr 17 x ^^^ rotr 19 x ^^^ (x >>> 10)

/-- The eight-word SHA-256 working state. -/
structure Hash8 where
  a : Nat
  b : Nat
  c : Nat
  d : Nat
  e : Nat
  f : Nat
  g : Nat
  h : Nat

/-- Initial hash value (FIPS 180-4), written in decimal. -/
def H0 : Hash8 :=
  ⟨1779033703, 3144134277, 1013904242, 2773480762,
   1359893119, 2600822924, 528734635, 1541459225⟩

/-- Number of zero bytes appended between the 0x80 marker and the length field. -/
def padLen (l : Nat) : Nat := (119 - l % 64) % 64

/-- The 8-byte big-endian message-length field. -/
def lengthBytes (bitLen : Nat) : List Nat :=
  [7, 6, 5, 4, 3, 2, 1, 0].map (fun i => (bitLen >>> (8 * i)) % 256)

/-- SHA-256 message padding. -/
def pad (bs : List Nat) : List Nat :=
  bs ++ 0x80 :: (List.replicate (padLen bs.length) 0 ++ lengthBytes (8 * bs.length))

/-- Big-endian bytes-to-word conversion. -/
def bytesToWord (l : List Nat) : Nat := l.foldl (fun acc b => acc * 256 + b) 0

/-- The 16 initial schedule words of one 64-byte block. -/
def blockWords (block : List Nat) : List Nat :=
  (List.range 16).map (fun i => bytesToWord ((block.drop (4 * i)).take 4))

/-- The next message-schedule word from the trailing 16 already computed. -/
def nextW (w : List Nat) : Nat :=
  let n := w.length
  w32 (smallS1 (w.getD (n - 2) 0) + w.getD (n - 7) 0 +
       smallS0 (w.getD (n - 15) 0) + w.getD (n - 16) 0)

/-- Extend the 16 block words to the full 64-word message schedule. -/
def schedule (ws : List Nat) : List Nat :=
  (List.range 48).foldl (fun w _ => w ++ [nextW w]) ws

/-- One compression round; `kw` is the (round constant, schedule word) pair. -/
def round (st : Hash8) (kw : Nat × Nat) : Hash8 :=
  let t1 := w32 (st.h + bigS1 st.e + ch st.e st.f st.g + kw.1 + kw.2)
  let t2 := w32 (bigS0 st.a + maj st.a st.b st.c)
  ⟨w32 (t1 + t2), st.a, st.b, st.c, w32 (st.d + t1), st.e, st.f, st.g⟩

/-- Componentwise 32-bit addition of two states. -/
def addState (x y : Hash8) : Hash8 :=
  ⟨w32 (x.a + y.a), w32 (x.b + y.b), w32 (x.c + y.c), w32 (x.d + y.d),
   w32 (x.e + y.e), w32 (x.f + y.f), w32 (x.g + y.g), w32 (x.h + y.h)⟩

/-- Compress one 64-byte block into the running state. -/
def compress (st : Hash8) (block : List Nat) : Hash8 :=
  addState st ((K.zip (schedule (blockWords block))).foldl round st)

/-- Split a padded message into its 64-byte blocks. -/
def blocks (bs : List Nat) : List (List Nat) :=
  (List.range (bs.length / 64)).map (fun i => (bs.drop (64 * i)).take 64)

/-- The SHA-256 state after absorbing a whole byte string. -/
def sha256 (bs : List Nat) : Hash8 :=
  (blocks (pad bs)).foldl compress H0

/-- Lowercase hex digit, in the style the Python `hexdigest` renders. -/
def hexChar (n : Nat) : Char :=
  if n < 10 then Char.ofNat (48 + n) else Char.ofNat (87 + n)

/-- Eight-digit big-endian hex rendering of one 32-bit word. -/
def wordHex (w : Nat) : List Char :=
  [7, 6, 5, 4, 3, 2, 1, 0].map (fun i => hexChar ((w >>> (4 * i)) % 16))

/-- The eight digest words in output order. -/
def digestWords (s : Hash8) : List Nat := [s.a, s.b, s.c, s.d, s.e, s.f, s.g, s.h]

/-- The 64-character lowercase hex digest of a state. -/
def hexdigest (s : Hash8) : String := String.mk ((digestWords s).map wordHex).flatten

end SHA256

namespace CacheManager

/-- `CacheManager.hash_file`: SHA-256 hex digest of the file bytes
(`hashlib.sha256(file_bytes).hexdigest()`). -/
def hash_file (file_bytes : List Nat) : String :=
  SHA256.hexdigest (SHA256.sha256 file_bytes)

end CacheManager

/-- UTF-8 encoding of a string as a list of byte values, modelling
the Python `str.encode()` call. -/
def strBytes (s : String) : List Nat := s.toUTF8.toList.map UInt8.toNat

namespace CacheManager

/-- The composite string built inside `CacheManager.generate_screening_key`
(`f"\x7bfile_hash\x7d:\x7bjob_title\x7d:\x7bjob_description\x7d"`). -/
def composite (file_hash job_title job_description : String) : String :=
  file_hash ++ ":" ++ job_title ++ ":" ++ job_description

/-- `CacheManager.generate_screening_key`: SHA-256 hex digest of the
colon-joined composite of the three inputs. -/
def generate_screening_key (file_hash job_title job_description : String) : String :=
  hash_file (strBytes (composite file_hash job_title job_description))

end CacheManager

/-- Boolean recogniser for lowercase hex digits. -/
def isHexChar (c : Char) : Bool := ('0' ≤ c && c ≤ '9') || ('a' ≤ c && c ≤ 'f')
/-- A JSON value, the shape of every payload and response body in the
Flask layer. -/
inductive Json where
  | null : Json
  | bool : Bool → Json
  | str : String → Json
  | num : ℚ → Json
  | obj : List (String × Json) → Json

/-- An oracle payload: the field list of a JSON object (a Python dict).
The Python truthiness test `if payload:` is emptiness of this list. -/
abbrev Payload := List (String × Json)

/-- A weight configuration: category name to weight, exact rationals for
the float literals of the source. -/
abbrev Weights := List (String × ℚ)

namespace Screener

/-- The hard-coded default weights of `ResumeScreener.screen_resume`
(src/screener.py lines 247-254). -/
def default_weights : Weights :=
  [("skills", 30/100), ("experience", 25/100), ("education", 15/100),
   ("projects", 15/100), ("cultural_fit", 5/100)]

/-- The weight substitution at the top of `ResumeScreener.screen_resume`:
`if weights is None: weights = §default§`. -/
def effectiveWeights (weights : Option Weights) : Weights :=
  weights.getD default_weights

end Screener

namespace CacheManager

/-- Python truthiness of a dict payload. -/
def truthy (p : Payload) : Bool := !p.isEmpty

/-- `CacheManager.get_parsed_resume`, over the raw outcome of the Supabase
query (the `try` body): a thrown store error or an empty row set is
collapsed to an absent result, otherwise the payload of the first row is
returned. -/
def get_parsed_resume (raw : Except String (List Payload)) : Option Payload :=
  match raw with
  | .error _ => none
  | .ok rows =>
    match rows with
    | [] => none
    | r :: _ => some r

/-- `CacheManager.store_parsed_resume`: a thrown store error is collapsed
to `False`, a completed upsert reports `True`. -/
def store_parsed_resume (raw : Except String Unit) : Bool :=
  match raw with
  | .error _ => false
  | .ok _ => true

/-- `CacheManager.get_screening_result`, over the raw outcome of the
Supabase query by screening key; same collapse as the parsed read. -/
def get_screening_result (raw : Except String (List Payload)) : Option Payload :=
  match raw with
  | .error _ => none
  | .ok rows =>
    match rows with
    | [] => none
    | r :: _ => some r

/-- `CacheManager.store_screening_result`: same collapse as the parsed
write. -/
def store_screening_result (raw : Except String Unit) : Bool :=
  match raw with
  | .error _ => false
  | .ok _ => true

/-- `CacheManager.get_complete_result`: reads the screening row and the
parsed row and serves the pair only when both are (truthily) present. -/
def get_complete_result (rawScreen rawParsed : Except String (List Payload)) :
    Option (Payload × Payload) :=
  match get_screening_result rawScreen, get_parsed_resume rawParsed with
  | some screening_result, some parsed_resume =>
    if truthy screening_result && truthy parsed_resume then
      some (parsed_resume, screening_result)
    else none
  | _, _ => none

/-- The two Supabase tables, one row per key. -/
structure CacheState where
  parsed : List (String × Payload)
  screening : List (String × Payload)

/-- Fault injection for the four store operations: `true` means the
underlying Supabase call raises. -/
structure StoreFaults where
  parsedRead : Bool
  screenRead : Bool
  parsedWrite : Bool
  screenWrite : Bool

def noFaults : StoreFaults := ⟨false, false, false, false⟩

def allFaults : StoreFaults := ⟨true, true, true, true⟩

/-- Raw rows of the `parsed_resumes` query for a file hash. -/
def rawParsedRows (f : StoreFaults) (st : CacheState) (file_hash : String) :
    Except String (List Payload) :=
  if f.parsedRead then .error "store failure"
  else .ok (st.parsed.lookup file_hash).toList

/-- Raw rows of the `screening_results` query for a screening key. -/
def rawScreenRows (f : StoreFaults) (st : CacheState) (key : String) :
    Except String (List Payload) :=
  if f.screenRead then .error "store failure"
  else .ok (st.screening.lookup key).toList

/-- The parsed read as the pipeline sees it. -/
def readParsed (f : StoreFaults) (st : CacheState) (file_hash : String) :
    Option Payload :=
  get_parsed_resume (rawParsedRows f st file_hash)

/-- The screening read as the pipeline sees it; the key is derived inside
`get_screening_result` in the source. -/
def readScreening (f : StoreFaults) (st : CacheState)
    (file_hash job_title job_description : String) : Option Payload :=
  get_screening_result
    (rawScreenRows f st (generate_screening_key file_hash job_title job_description))

/-- The complete (level-1) read as the pipeline sees it. -/
def readComplete (f : StoreFaults) (st : CacheState)
    (file_hash job_title job_description : String) : Option (Payload × Payload) :=
  get_complete_result
    (rawScreenRows f st (generate_screening_key file_hash job_title job_description))
    (rawParsedRows f st file_hash)

/-- Upsert: replace the row under `k`, keeping one row per key. -/
def upsert (k : String) (v : Payload) (l : List (String × Payload)) :
    List (String × Payload) :=
  (k, v) :: l.filter (fun kv => kv.1 != k)

/-- The parsed write as the pipeline sees it: the new state together with
the boolean that `store_parsed_resume` reports. -/
def writeParsed (f : StoreFaults) (st : CacheState) (file_hash : String)
    (p : Payload) : CacheState × Bool :=
  if f.parsedWrite then (st, store_parsed_resume (.error "store failure"))
  else ({ st with parsed := upsert file_hash p st.parsed },
        store_parsed_resume (.ok ()))

/-- The screening write as the pipeline sees it. -/
def writeScreening (f : StoreFaults) (st : CacheState)
    (file_hash job_title job_description : String) (s : Payload) :
    CacheState × Bool :=
  if f.screenWrite then (st, store_screening_result (.error "store failure"))
  else
    ({ st with
       screening := upsert (generate_screening_key file_hash job_title job_description) s st.screening },
     store_screening_result (.ok ()))

end CacheManager

namespace App

open CacheManager

/-- The external collaborators of `app.py`: `json.loads` for the weights
field, `processor.parse_resume_from_bytes` (Extractor) and
`processor.screen_resume` (Scorer); each may raise. -/
structure Oracles where
  loads : String → Except String Weights
  extract : List Nat → String → Except String Payload
  score : Payload → String → String → Option Weights → Except String Payload

/-- A multipart parse request: the optional file part (filename, bytes). -/
structure ParseRequest where
  file : Option (String × List Nat)

/-- A multipart screen request: optional file part, the two job form
fields (`none` when missing) and the raw weights form field. -/
structure ScreenRequest where
  file : Option (String × List Nat)
  job_title : Option String
  job_description : Option String
  weights : Option String

/-- `{"error": msg}` — the body of every 400 rejection in `app.py`. -/
def errBody (msg : String) : Json := .obj [("error", .str msg)]

/-- `{"success": false, "error": msg}` — the body of the 500 handler. -/
def failBody (msg : String) : Json :=
  .obj [("success", .bool false), ("error", .str msg)]

/-- The 200 body of the parse endpoint. -/
def parseOkBody (data : Payload) (cached : Bool) (file_hash : String) : Json :=
  .obj [("success", .bool true), ("data", .obj data),
        ("cached", .bool cached), ("file_hash", .str file_hash)]

/-- The 200 body of the screen endpoint. -/
def screenOkBody (parsed screened : Payload) (parsed_cached screening_cached : Bool)
    (file_hash : String) : Json :=
  .obj [("success", .bool true),
        ("data", .obj [("parsed", .obj parsed), ("screened", .obj screened)]),
        ("cache_status",
          .obj [("parsed_cached", .bool parsed_cached),
                ("screening_cached", .bool screening_cached),
                ("file_hash", .str file_hash)])]

/-- Field lookup in a JSON object body. -/
def jsonField (j : Json) (k : String) : Option Json :=
  match j with
  | .obj fields => fields.lookup k
  | _ => none

/-- Suffix test on character lists. -/
def endsWithL (l suf : List Char) : Bool := l.drop (l.length - suf.length) == suf

/-- `file.filename.lower().endswith((".pdf", ".docx", ".doc"))`. -/
def hasValidExt (name : String) : Bool :=
  endsWithL (name.data.map Char.toLower) ".pdf".data ||
    endsWithL (name.data.map Char.toLower) ".docx".data ||
    endsWithL (name.data.map Char.toLower) ".doc".data

/-- `not field` for a form field: missing or empty means falsy. -/
def blankField (o : Option String) : Bool :=
  match o with
  | none => true
  | some s => s.isEmpty

/-- The Python truthiness test on an optional payload (`if cached_parsed:`):
an absent entry and an empty dict are both misses. -/
def hitPayload (o : Option Payload) : Option Payload :=
  match o with
  | none => none
  | some p => if p.isEmpty then none else some p

/-- The weights step of the screen endpoint: absent field passes `None`
through, a present field goes through `json.loads`, whose exception
escapes to the outer handler. -/
def resolveWeights (oc : Oracles) (req : ScreenRequest) :
    Except String (Option Weights) :=
  match req.weights with
  | none => .ok none
  | some wstr => (oc.loads wstr).map some

/-- Outcome of one request against the screen endpoint: HTTP status and
body, the store state afterwards, the calls made to the Extractor and the
Scorer (with their arguments), and the number of cache reads issued. -/
structure ScreenResult where
  status : Nat
  body : Json
  state : CacheState
  extractLog : List (List Nat × String)
  scoreLog : List (Payload × String × String × Option Weights)
  cacheReads : Nat

/-- Outcome of one request against the parse endpoint. -/
structure ParseResult where
  status : Nat
  body : Json
  state : CacheState
  extractLog : List (List Nat × String)
  cacheReads : Nat

/-- The cache-miss tail of the parse endpoint: extract, best-effort store,
return fresh. -/
def parseMiss (oc : Oracles) (f : StoreFaults) (st : CacheState)
    (filename : String) (file_bytes : List Nat) (file_hash : String) :
    ParseResult :=
  match oc.extract file_bytes filename with
  | .error e => ⟨500, failBody e, st, [(file_bytes, filename)], 1⟩
  | .ok parsed =>
    ⟨200, parseOkBody parsed false file_hash,
     (writeParsed f st file_hash parsed).1, [(file_bytes, filename)], 1⟩

/-- `parse_resume` (`/api/parse`): validation, one cache read, then hit or
the miss tail. -/
def parse_resume (oc : Oracles) (f : StoreFaults) (st : CacheState)
    (req : ParseRequest) : ParseResult :=
  match req.file with
  | none => ⟨400, errBody "No file provided", st, [], 0⟩
  | some (filename, file_bytes) =>
    if filename = "" then ⟨400, errBody "No file selected", st, [], 0⟩
    else if !hasValidExt filename then
      ⟨400, errBody "Invalid file format. Only PDF and DOCX are supported",
       st, [], 0⟩
    else
      match hitPayload (readParsed f st (hash_file file_bytes)) with
      | some cached =>
        ⟨200, parseOkBody cached true (hash_file file_bytes), st, [], 1⟩
      | none => parseMiss oc f st filename file_bytes (hash_file file_bytes)

/-- The three-stage core of the screen endpoint, after validation and
weight resolution (`app.py` lines 151-244). -/
def screenStages (oc : Oracles) (f : StoreFaults) (st : CacheState)
    (filename : String) (file_bytes : List Nat) (file_hash : String)
    (job_title job_description : String) (w : Option Weights) : ScreenResult :=
  match readComplete f st file_hash job_title job_description with
  | some (parsed, screened) =>
    ⟨200, screenOkBody parsed screened true true file_hash, st, [], [], 2⟩
  | none =>
    match hitPayload (readParsed f st file_hash) with
    | some cached_parsed =>
      match oc.score cached_parsed job_title job_description w with
      | .error e =>
        ⟨500, failBody e, st, [],
         [(cached_parsed, job_title, job_description, w)], 3⟩
      | .ok screened =>
        ⟨200, screenOkBody cached_parsed screened true false file_hash,
         (writeScreening f st file_hash job_title job_description screened).1,
         [], [(cached_parsed, job_title, job_description, w)], 3⟩
    | none =>
      match oc.extract file_bytes filename with
      | .error e => ⟨500, failBody e, st, [(file_bytes, filename)], [], 3⟩
      | .ok parsed =>
        match oc.score parsed job_title job_description w with
        | .error e =>
          ⟨500, failBody e, (writeParsed f st file_hash parsed).1,
           [(file_bytes, filename)],
           [(parsed, job_title, job_description, w)], 3⟩
        | .ok screened =>
          ⟨200, screenOkBody parsed screened false false file_hash,
           (writeScreening f (writeParsed f st file_hash parsed).1 file_hash
             job_title job_description screened).1,
           [(file_bytes, filename)],
           [(parsed, job_title, job_description, w)], 3⟩

/-- `screen_resume` (`/api/screen`): validation in source order, weight
resolution, then the three-stage core. -/
def screen_resume (oc : Oracles) (f : StoreFaults) (st : CacheState)
    (req : ScreenRequest) : ScreenResult :=
  match req.file with
  | none => ⟨400, errBody "No file provided", st, [], [], 0⟩
  | some (filename, file_bytes) =>
    if filename = "" then ⟨400, errBody "No file selected", st, [], [], 0⟩
    else if !hasValidExt filename then
      ⟨400, errBody "Invalid file format. Only PDF and DOCX are supported",
       st, [], [], 0⟩
    else if blankField req.job_title || blankField req.job_description then
      ⟨400, errBody "job_title and job_description are required", st, [], [], 0⟩
    else
      match resolveWeights oc req with
      | .error e => ⟨500, failBody e, st, [], [], 0⟩
      | .ok w =>
        screenStages oc f st filename file_bytes (hash_file file_bytes)
          (req.job_title.getD "") (req.job_description.getD "") w

end App

/-- The cache state after upserting a screening row, as the no-fault
screening write produces it. -/
def CacheManager.withScreening (st : CacheManager.CacheState) (key : String)
    (s : Payload) : CacheManager.CacheState :=
  { st with screening := CacheManager.upsert key s st.screening }

/-- The cache state after upserting a parsed row, as the no-fault parsed
write produces it. -/
def CacheManager.withParsed (st : CacheManager.CacheState) (fh : String)
    (p : Payload) : CacheManager.CacheState :=
  { st with parsed := CacheManager.upsert fh p st.parsed }

/-- The screening key that the job fields of a request derive for given file bytes. -/
def App.reqKey (bytes : List Nat) (req : App.ScreenRequest) : String :=
  CacheManager.generate_screening_key (CacheManager.hash_file bytes)
    (req.job_title.getD "") (req.job_description.getD "")

/-- Fixture: file bytes. -/
def b0 : List Nat := [1, 2, 3]

/-- Fixture: a non-empty parsed payload. -/
def p0 : Payload := [("full_name", Json.str "A")]

/-- Fixture: a non-empty screening payload. -/
def s0 : Payload := [("overall_score", Json.num 7)]

/-- Fixture: oracles that always succeed. -/
def oc0 : App.Oracles :=
  ⟨fun _ => .ok [("skills", 1)], fun _ _ => .ok p0, fun _ _ _ _ => .ok s0⟩

/-- Fixture: the fingerprint of `b0`. -/
def fh0 : String := CacheManager.hash_file b0

/-- Fixture: the screening key of `b0` with job title `t`, description `d`. -/
def key0 : String := CacheManager.generate_screening_key fh0 "t" "d"

/-- Fixture: a state with both caches populated for (`b0`, `t`, `d`). -/
def stBoth : CacheManager.CacheState := ⟨[(fh0, p0)], [(key0, s0)]⟩

/-- Fixture: a state with only the parsed cache populated for `b0`. -/
def stParsedOnly : CacheManager.CacheState := ⟨[(fh0, p0)], []⟩

/-- Fixture: the empty cache state. -/
def stEmpty : CacheManager.CacheState := ⟨[], []⟩

/-- Fixture: a well-formed screen request for `b0` against job (`t`, `d`). -/
def reqTD : App.ScreenRequest := ⟨some ("r.pdf", b0), some "t", some "d", none⟩

/-- Fixture: oracles whose weight decoding distinguishes two form values. -/
def oc1 : App.Oracles :=
  ⟨fun s => if s = "w1" then .ok [("skills", 1)] else .ok [("skills", 0)],
   fun _ _ => .ok p0, fun _ _ _ _ => .ok s0⟩
/-- Fixture: oracles whose weight decoding always raises. -/
def ocBad : App.Oracles :=
  ⟨fun _ => .error "Expecting value", fun _ _ => .ok p0, fun _ _ _ _ => .ok s0⟩

/-- Fixture: a screen request with a malformed weights form field. -/
def reqBadW : App.ScreenRequest := ⟨some ("r.pdf", b0), some "t", some "d", some "x"⟩


namespace App

/-- The response-body discipline of the two endpoints: a 500 response
carries the `success = false` envelope with an error message; a 400
rejection carries a bare error object with no `success` field. -/
def envelopeShape (status : Nat) (body : Json) : Prop :=
  (status = 500 → jsonField body "success" = some (.bool false) ∧
     ∃ m, jsonField body "error" = some (.str m)) ∧
  (status = 400 → (∃ m, body = errBody m) ∧ jsonField body "success" = none)

end App
/-- Fixture: a screen request with no file part. -/
def reqNoFile : App.ScreenRequest := ⟨none, none, none, none⟩

/-- Fixture: a state whose parsed row for `b0` is the empty payload. -/
def stEmptyPayload : CacheManager.CacheState := ⟨[(fh0, [])], []⟩


namespace SHA256

theorem wordHex_length (w : Nat) : (wordHex w).length = 8 := by
  simp [wordHex]

theorem hexChar_isHex (n : Nat) (h : n < 16) : isHexChar (hexChar n) = true := by
  interval_cases n <;> decide

theorem mem_wordHex_isHex (w : Nat) (c : Char) (h : c ∈ wordHex w) :
    isHexChar c = true := by
  simp only [wordHex, List.mem_map] at h
  obtain ⟨i, _, rfl⟩ := h
  exact hexChar_isHex _ (Nat.mod_lt _ (by decide))

theorem hexdigest_length (s : Hash8) : (hexdigest s).length = 64 := by
  show ((digestWords s).map wordHex).flatten.length = 64
  simp [digestWords, wordHex_length]

theorem hexdigest_all_hex (s : Hash8) (c : Char) (h : c ∈ (hexdigest s).data) :
    isHexChar c = true := by
  have h' : c ∈ ((digestWords s).map wordHex).flatten := h
  simp only [List.mem_flatten, List.mem_map] at h'
  obtain ⟨l, ⟨w, _, rfl⟩, hc⟩ := h'
  exact mem_wordHex_isHex w c hc

end SHA256

/-- C2: `hash_file` is a pure, total, deterministic function of the byte
content: it is defined for every byte list (including the empty list),
always returns a 64-character string of lowercase hex digits, and equal
inputs yield equal fingerprints. -/
theorem hash_file_total_fixed_hex (bs bs2 : List Nat) (h : bs = bs2) :
    (CacheManager.hash_file bs).length = 64 ∧
    (CacheManager.hash_file bs).data.all isHexChar = true ∧
    CacheManager.hash_file bs = CacheManager.hash_file bs2 := by
  refine ⟨SHA256.hexdigest_length _, ?_, h ▸ rfl⟩
  rw [List.all_eq_true]
  intro c hc
  exact SHA256.hexdigest_all_hex _ c hc

/-- Witness for C2 at the empty byte sequence. -/
theorem hash_file_total_fixed_hex_witness :
    ([] : List Nat) = [] ∧ (CacheManager.hash_file []).length = 64 :=
  ⟨rfl, (hash_file_total_fixed_hex [] [] rfl).1⟩

/-- Splitting at a separator character is unambiguous when neither left
part contains the separator. -/
theorem sep_append_inj {c : Char} {a b a2 b2 : List Char}
    (ha : c ∉ a) (ha2 : c ∉ a2) (h : a ++ c :: b = a2 ++ c :: b2) :
    a = a2 ∧ b = b2 := by
  induction a generalizing a2 with
  | nil =>
    cases a2 with
    | nil => simpa using h
    | cons y ys =>
      simp only [List.nil_append, List.cons_append, List.cons.injEq] at h
      exact absurd (h.1 ▸ List.mem_cons_self y ys) ha2
  | cons x xs ih =>
    cases a2 with
    | nil =>
      simp only [List.cons_append, List.nil_append, List.cons.injEq] at h
      exact absurd (h.1 ▸ List.mem_cons_self x xs) ha
    | cons y ys =>
      simp only [List.cons_append, List.cons.injEq] at h
      obtain ⟨rfl, h2⟩ := h
      have hxs : c ∉ xs := fun hm => ha (List.mem_cons_of_mem _ hm)
      have hys : c ∉ ys := fun hm => ha2 (List.mem_cons_of_mem _ hm)
      obtain ⟨rfl, hb⟩ := ih hxs hys h2
      exact ⟨rfl, hb⟩

theorem composite_data (fh jt jd : String) :
    (CacheManager.composite fh jt jd).data =
      fh.data ++ ':' :: (jt.data ++ ':' :: jd.data) := by
  simp [CacheManager.composite, String.data_append]

/-- C1 (amended): on triples whose document fingerprint and job title are
free of the `:` separator, the composite built by
`generate_screening_key` is injective, so identical triples always give
the same ScreeningFingerprint and (up to hash collision) such distinct
triples never do; equal composites always yield equal keys. -/
theorem generate_screening_key_injective_on_colonfree
    (fh jt jd fh2 jt2 jd2 : String)
    (h1 : ':' ∉ fh.data) (h2 : ':' ∉ jt.data)
    (h3 : ':' ∉ fh2.data) (h4 : ':' ∉ jt2.data) :
    (CacheManager.composite fh jt jd = CacheManager.composite fh2 jt2 jd2 ↔
      (fh, jt, jd) = (fh2, jt2, jd2)) ∧
    (CacheManager.composite fh jt jd = CacheManager.composite fh2 jt2 jd2 →
      CacheManager.generate_screening_key fh jt jd =
        CacheManager.generate_screening_key fh2 jt2 jd2) := by
  constructor
  · constructor
    · intro h
      have hd : (CacheManager.composite fh jt jd).data =
          (CacheManager.composite fh2 jt2 jd2).data := by rw [h]
      rw [composite_data, composite_data] at hd
      obtain ⟨e1, hd2⟩ := sep_append_inj h1 h3 hd
      obtain ⟨e2, e3⟩ := sep_append_inj h2 h4 hd2
      have : fh = fh2 := String.ext e1
      have : jt = jt2 := String.ext e2
      have : jd = jd2 := String.ext e3
      simp_all
    · intro h
      simp only [Prod.mk.injEq] at h
      obtain ⟨rfl, rfl, rfl⟩ := h
      rfl
  · intro h
    unfold CacheManager.generate_screening_key
    rw [h]

/-- Witness for the amended C1 at a concrete colon-free triple. -/
theorem generate_screening_key_injective_witness :
    ':' ∉ ("h" : String).data ∧ ':' ∉ ("t" : String).data ∧
    CacheManager.generate_screening_key "h" "t" "d" =
      CacheManager.generate_screening_key "h" "t" "d" :=
  ⟨by decide, by decide,
    (generate_screening_key_injective_on_colonfree "h" "t" "d" "h" "t" "d"
      (by decide) (by decide) (by decide) (by decide)).2 rfl⟩

/-- C1 counterexample: two distinct (fingerprint, title, description)
triples whose composite strings — and hence screening keys — coincide,
because the `:` separator also occurs inside the job title. -/
theorem generate_screening_key_separator_ambiguous :
    (("h", "a:b", "c") : String × String × String) ≠ ("h", "a", "b:c") ∧
    CacheManager.composite "h" "a:b" "c" = CacheManager.composite "h" "a" "b:c" ∧
    CacheManager.generate_screening_key "h" "a:b" "c" =
      CacheManager.generate_screening_key "h" "a" "b:c" := by
  refine ⟨by decide, by decide, ?_⟩
  unfold CacheManager.generate_screening_key
  have h : CacheManager.composite "h" "a:b" "c" = CacheManager.composite "h" "a" "b:c" := by
    decide
  rw [h]


/-- C6 counterexample: the default mapping does cover exactly the category
set (skills, experience, education, projects, cultural_fit), but its
values sum to 9/10 = 0.90 as exact rationals, not to 1.0. -/
theorem default_weights_sum_not_one :
    Screener.default_weights.map Prod.fst =
      ["skills", "experience", "education", "projects", "cultural_fit"] ∧
    (Screener.default_weights.map Prod.snd).sum = 9 / 10 ∧
    (Screener.default_weights.map Prod.snd).sum ≠ 1 := by
  refine ⟨rfl, ?_, ?_⟩ <;> norm_num [Screener.default_weights]

/-- C6 (amended): when the caller supplies no weight configuration the
screener substitutes the fixed default mapping over exactly the category
set (skills, experience, education, projects, cultural_fit); the values
of that mapping sum (as exact rationals) to 0.90, not 1.0; a supplied
configuration is passed through unchanged. -/
theorem screen_resume_default_weights :
    Screener.effectiveWeights none = Screener.default_weights ∧
    Screener.default_weights.map Prod.fst =
      ["skills", "experience", "education", "projects", "cultural_fit"] ∧
    (Screener.default_weights.map Prod.snd).sum = 9 / 10 ∧
    (∀ w : Weights, Screener.effectiveWeights (some w) = w) := by
  refine ⟨rfl, rfl, ?_, fun w => rfl⟩
  norm_num [Screener.default_weights]

namespace CacheManager

theorem truthy_of_ne_nil {p : Payload} (h : p ≠ []) : truthy p = true := by
  cases p with
  | nil => exact absurd rfl h
  | cons a l => rfl

theorem lookup_upsert (k : String) (v : Payload) (l : List (String × Payload)) :
    (upsert k v l).lookup k = some v := by
  simp [upsert, List.lookup]

theorem readParsed_some {f : StoreFaults} {st : CacheState} {fh : String}
    {p : Payload} (hf : f.parsedRead = false) (h : st.parsed.lookup fh = some p) :
    readParsed f st fh = some p := by
  simp [readParsed, rawParsedRows, get_parsed_resume, hf, h]

theorem readParsed_none {f : StoreFaults} {st : CacheState} {fh : String}
    (hf : f.parsedRead = false) (h : st.parsed.lookup fh = none) :
    readParsed f st fh = none := by
  simp [readParsed, rawParsedRows, get_parsed_resume, hf, h]

theorem readParsed_fault {f : StoreFaults} {st : CacheState} {fh : String}
    (hf : f.parsedRead = true) : readParsed f st fh = none := by
  simp [readParsed, rawParsedRows, get_parsed_resume, hf]

theorem readComplete_some {f : StoreFaults} {st : CacheState}
    {fh jt jd : String} {p s : Payload}
    (hf1 : f.screenRead = false) (hf2 : f.parsedRead = false)
    (hs : st.screening.lookup (generate_screening_key fh jt jd) = some s)
    (hp : st.parsed.lookup fh = some p) (hts : s ≠ []) (htp : p ≠ []) :
    readComplete f st fh jt jd = some (p, s) := by
  simp [readComplete, get_complete_result, rawScreenRows, rawParsedRows,
        get_screening_result, get_parsed_resume, hf1, hf2, hs, hp,
        truthy_of_ne_nil hts, truthy_of_ne_nil htp]

theorem readComplete_none_of_screen_none {f : StoreFaults} {st : CacheState}
    {fh jt jd : String} (hf : f.screenRead = false)
    (hs : st.screening.lookup (generate_screening_key fh jt jd) = none) :
    readComplete f st fh jt jd = none := by
  simp [readComplete, get_complete_result, rawScreenRows,
        get_screening_result, hf, hs]

theorem readComplete_fault {f : StoreFaults} {st : CacheState}
    {fh jt jd : String} (hf : f.screenRead = true) :
    readComplete f st fh jt jd = none := by
  simp [readComplete, get_complete_result, rawScreenRows,
        get_screening_result, hf]

/-- The complete result is absent whenever the parsed read comes back
absent, whatever the screening read returned. -/
theorem get_complete_result_none_of_parsed_none
    (rawScreen rawParsed : Except String (List Payload))
    (hp : get_parsed_resume rawParsed = none) :
    get_complete_result rawScreen rawParsed = none := by
  unfold get_complete_result
  rw [hp]
  rcases get_screening_result rawScreen with _ | s <;> rfl

/-- The complete result is absent whenever the parsed row is the empty
payload, even when a truthy screening row exists. -/
theorem get_complete_result_none_of_parsed_empty
    (rawScreen rawParsed : Except String (List Payload))
    (hp : get_parsed_resume rawParsed = some []) :
    get_complete_result rawScreen rawParsed = none := by
  unfold get_complete_result
  rw [hp]
  rcases get_screening_result rawScreen with _ | s <;> simp [truthy]

end CacheManager

namespace App

open CacheManager

theorem hitPayload_some {p : Payload} (h : p ≠ []) :
    hitPayload (some p) = some p := by
  cases p with
  | nil => exact absurd rfl h
  | cons a l => rfl

theorem hitPayload_ne_nil {o : Option Payload} {p : Payload}
    (h : hitPayload o = some p) : p ≠ [] := by
  cases o with
  | none => exact absurd h (by simp [hitPayload])
  | some q =>
    by_cases hq : q.isEmpty
    · simp [hitPayload, hq] at h
    · simp [hitPayload, hq] at h
      subst h
      simpa [List.isEmpty_iff] using hq

theorem screenStages_complete {oc : Oracles} {f : StoreFaults} {st : CacheState}
    {fn : String} {bytes : List Nat} {fh jt jd : String} {w : Option Weights}
    {p s : Payload} (h : readComplete f st fh jt jd = some (p, s)) :
    screenStages oc f st fn bytes fh jt jd w =
      ⟨200, screenOkBody p s true true fh, st, [], [], 2⟩ := by
  simp [screenStages, h]

theorem screenStages_parsedOnly {oc : Oracles} {f : StoreFaults} {st : CacheState}
    {fn : String} {bytes : List Nat} {fh jt jd : String} {w : Option Weights}
    {cp s : Payload} (h1 : readComplete f st fh jt jd = none)
    (h2 : hitPayload (readParsed f st fh) = some cp)
    (h3 : oc.score cp jt jd w = .ok s) :
    screenStages oc f st fn bytes fh jt jd w =
      ⟨200, screenOkBody cp s true false fh,
       (writeScreening f st fh jt jd s).1, [], [(cp, jt, jd, w)], 3⟩ := by
  simp [screenStages, h1, h2, h3]

theorem screenStages_fullMiss {oc : Oracles} {f : StoreFaults} {st : CacheState}
    {fn : String} {bytes : List Nat} {fh jt jd : String} {w : Option Weights}
    {p s : Payload} (h1 : readComplete f st fh jt jd = none)
    (h2 : hitPayload (readParsed f st fh) = none)
    (h3 : oc.extract bytes fn = .ok p) (h4 : oc.score p jt jd w = .ok s) :
    screenStages oc f st fn bytes fh jt jd w =
      ⟨200, screenOkBody p s false false fh,
       (writeScreening f (writeParsed f st fh p).1 fh jt jd s).1,
       [(bytes, fn)], [(p, jt, jd, w)], 3⟩ := by
  simp [screenStages, h1, h2, h3, h4]

theorem screen_resume_valid {oc : Oracles} {f : StoreFaults} {st : CacheState}
    {req : ScreenRequest} {fn : String} {bytes : List Nat} {w : Option Weights}
    (hfile : req.file = some (fn, bytes)) (hname : fn ≠ "")
    (hext : hasValidExt fn = true)
    (hjt : blankField req.job_title = false)
    (hjd : blankField req.job_description = false)
    (hw : resolveWeights oc req = .ok w) :
    screen_resume oc f st req =
      screenStages oc f st fn bytes (hash_file bytes)
        (req.job_title.getD "") (req.job_description.getD "") w := by
  simp [screen_resume, hfile, hname, hext, hjt, hjd, hw]

end App
/-- C3: when both cache levels hold (truthy) entries for the given
document and job text, the screen endpoint returns the cached pair with
provenance `parsed_cached = true, screening_cached = true`, leaves the
state unchanged and invokes neither the Extractor nor the Scorer; and a
complete result is only ever served when the parsed read is present — an
absent parsed half forces an absent complete result. -/
theorem screen_complete_hit_correct
    (oc : App.Oracles) (st : CacheManager.CacheState) (req : App.ScreenRequest)
    (fn : String) (bytes : List Nat) (w : Option Weights) (p s : Payload)
    (hfile : req.file = some (fn, bytes)) (hname : fn ≠ "")
    (hext : App.hasValidExt fn = true)
    (hjt : App.blankField req.job_title = false)
    (hjd : App.blankField req.job_description = false)
    (hw : App.resolveWeights oc req = .ok w)
    (hs : st.screening.lookup
        (CacheManager.generate_screening_key (CacheManager.hash_file bytes)
          (req.job_title.getD "") (req.job_description.getD "")) = some s)
    (hp : st.parsed.lookup (CacheManager.hash_file bytes) = some p)
    (hts : s ≠ []) (htp : p ≠ []) :
    App.screen_resume oc CacheManager.noFaults st req =
      ⟨200, App.screenOkBody p s true true (CacheManager.hash_file bytes),
       st, [], [], 2⟩ ∧
    (∀ rawScreen rawParsed, CacheManager.get_parsed_resume rawParsed = none →
       CacheManager.get_complete_result rawScreen rawParsed = none) := by
  constructor
  · rw [App.screen_resume_valid hfile hname hext hjt hjd hw]
    exact App.screenStages_complete
      (CacheManager.readComplete_some rfl rfl hs hp hts htp)
  · exact fun rawS rawP h =>
      CacheManager.get_complete_result_none_of_parsed_none rawS rawP h

/-- Witness for C3 on a doubly populated concrete state. -/
theorem screen_complete_hit_correct_witness :
    stBoth.parsed.lookup (CacheManager.hash_file b0) = some p0 ∧
    App.screen_resume oc0 CacheManager.noFaults stBoth reqTD =
      ⟨200, App.screenOkBody p0 s0 true true (CacheManager.hash_file b0),
       stBoth, [], [], 2⟩ :=
  ⟨by simp [stBoth, fh0, List.lookup],
   (screen_complete_hit_correct oc0 stBoth reqTD "r.pdf" b0 none p0 s0 rfl
      (by decide) (by decide) rfl rfl rfl
      (by simp [stBoth, reqTD, key0, fh0, List.lookup])
      (by simp [stBoth, fh0, List.lookup])
      (by simp [s0]) (by simp [p0])).1⟩

/-- C4: when the screening cache misses but the parsed cache holds a
(truthy) entry for the document, the screen endpoint invokes the Scorer
exactly once, with the cached parsed payload (the Extractor is not
invoked, so never raw text), stores the fresh screening result under the
screening fingerprint, and returns it with provenance
`parsed_cached = true, screening_cached = false`. -/
theorem screen_parsed_only_hit
    (oc : App.Oracles) (st : CacheManager.CacheState) (req : App.ScreenRequest)
    (fn : String) (bytes : List Nat) (w : Option Weights) (p s : Payload)
    (hfile : req.file = some (fn, bytes)) (hname : fn ≠ "")
    (hext : App.hasValidExt fn = true)
    (hjt : App.blankField req.job_title = false)
    (hjd : App.blankField req.job_description = false)
    (hw : App.resolveWeights oc req = .ok w)
    (hs : st.screening.lookup (App.reqKey bytes req) = none)
    (hp : st.parsed.lookup (CacheManager.hash_file bytes) = some p)
    (htp : p ≠ [])
    (hscore : oc.score p (req.job_title.getD "") (req.job_description.getD "") w =
      .ok s) :
    App.screen_resume oc CacheManager.noFaults st req =
      ⟨200, App.screenOkBody p s true false (CacheManager.hash_file bytes),
       CacheManager.withScreening st (App.reqKey bytes req) s,
       [], [(p, req.job_title.getD "", req.job_description.getD "", w)], 3⟩ ∧
    (CacheManager.withScreening st (App.reqKey bytes req) s).screening.lookup
      (App.reqKey bytes req) = some s := by
  constructor
  · rw [App.screen_resume_valid hfile hname hext hjt hjd hw]
    rw [App.screenStages_parsedOnly
      (CacheManager.readComplete_none_of_screen_none rfl hs)
      (by rw [CacheManager.readParsed_some rfl hp]; exact App.hitPayload_some htp)
      hscore]
    rfl
  · exact CacheManager.lookup_upsert _ _ _

/-- Witness for C4 on a parsed-only concrete state. -/
theorem screen_parsed_only_hit_witness :
    stParsedOnly.parsed.lookup (CacheManager.hash_file b0) = some p0 ∧
    App.screen_resume oc0 CacheManager.noFaults stParsedOnly reqTD =
      ⟨200, App.screenOkBody p0 s0 true false (CacheManager.hash_file b0),
       CacheManager.withScreening stParsedOnly (App.reqKey b0 reqTD) s0,
       [], [(p0, reqTD.job_title.getD "", reqTD.job_description.getD "", none)],
       3⟩ :=
  ⟨by simp [stParsedOnly, fh0, List.lookup],
   (screen_parsed_only_hit oc0 stParsedOnly reqTD "r.pdf" b0 none p0 s0 rfl
      (by decide) (by decide) rfl rfl rfl
      (by simp [stParsedOnly])
      (by simp [stParsedOnly, fh0, List.lookup])
      (by simp [p0]) rfl).1⟩

/-- C5: a store exception during a cache read surfaces as an absent
result, a store exception during a cache write surfaces as `False`, and
even with every store operation failing, a valid screen request still
computes and returns its result (HTTP 200), leaving the state unchanged. -/
theorem cache_store_fault_isolation
    (oc : App.Oracles) (st : CacheManager.CacheState) (req : App.ScreenRequest)
    (fn : String) (bytes : List Nat) (w : Option Weights) (p s : Payload)
    (hfile : req.file = some (fn, bytes)) (hname : fn ≠ "")
    (hext : App.hasValidExt fn = true)
    (hjt : App.blankField req.job_title = false)
    (hjd : App.blankField req.job_description = false)
    (hw : App.resolveWeights oc req = .ok w)
    (hx : oc.extract bytes fn = .ok p)
    (hscore : oc.score p (req.job_title.getD "") (req.job_description.getD "") w =
      .ok s) :
    (∀ e, CacheManager.get_parsed_resume (.error e) = none) ∧
    (∀ e, CacheManager.get_screening_result (.error e) = none) ∧
    (∀ e, CacheManager.store_parsed_resume (.error e) = false) ∧
    (∀ e, CacheManager.store_screening_result (.error e) = false) ∧
    App.screen_resume oc CacheManager.allFaults st req =
      ⟨200, App.screenOkBody p s false false (CacheManager.hash_file bytes),
       st, [(bytes, fn)],
       [(p, req.job_title.getD "", req.job_description.getD "", w)], 3⟩ := by
  refine ⟨fun e => rfl, fun e => rfl, fun e => rfl, fun e => rfl, ?_⟩
  rw [App.screen_resume_valid hfile hname hext hjt hjd hw]
  rw [App.screenStages_fullMiss (CacheManager.readComplete_fault rfl)
    (by rw [CacheManager.readParsed_fault rfl]; rfl) hx hscore]
  rfl

/-- Witness for C5 on the all-faults store with concrete oracles. -/
theorem cache_store_fault_isolation_witness :
    oc0.extract b0 "r.pdf" = .ok p0 ∧
    App.screen_resume oc0 CacheManager.allFaults stEmpty reqTD =
      ⟨200, App.screenOkBody p0 s0 false false (CacheManager.hash_file b0),
       stEmpty, [(b0, "r.pdf")],
       [(p0, reqTD.job_title.getD "", reqTD.job_description.getD "", none)],
       3⟩ :=
  ⟨rfl,
   (cache_store_fault_isolation oc0 stEmpty reqTD "r.pdf" b0 none p0 s0 rfl
      (by decide) (by decide) rfl rfl rfl rfl rfl).2.2.2.2⟩


/-- C7: the screening key takes no weight configuration, so a first screen
request carrying weights `W1` populates both caches (full miss, scored
with `W1`) and a second identical request carrying different weights `W2`
lands on the same screening fingerprint: it is a complete hit that
returns the `W1`-weighted result of the first request without ever invoking
the Scorer. -/
theorem weight_insensitive_cache_key
    (oc : App.Oracles) (st : CacheManager.CacheState)
    (fn : String) (bytes : List Nat) (jt jd w1str w2str : String)
    (W1 W2 : Weights) (p s1 : Payload)
    (_hW : W1 ≠ W2)
    (hl1 : oc.loads w1str = .ok W1) (hl2 : oc.loads w2str = .ok W2)
    (hname : fn ≠ "") (hext : App.hasValidExt fn = true)
    (hjt : jt.isEmpty = false) (hjd : jd.isEmpty = false)
    (hsl : st.screening.lookup
      (CacheManager.generate_screening_key (CacheManager.hash_file bytes) jt jd) =
      none)
    (hpl : st.parsed.lookup (CacheManager.hash_file bytes) = none)
    (hx : oc.extract bytes fn = .ok p) (hptr : p ≠ [])
    (hs : oc.score p jt jd (some W1) = .ok s1) (hs1 : s1 ≠ []) :
    App.screen_resume oc CacheManager.noFaults st
        ⟨some (fn, bytes), some jt, some jd, some w1str⟩ =
      ⟨200, App.screenOkBody p s1 false false (CacheManager.hash_file bytes),
       CacheManager.withScreening
         (CacheManager.withParsed st (CacheManager.hash_file bytes) p)
         (CacheManager.generate_screening_key (CacheManager.hash_file bytes) jt jd)
         s1,
       [(bytes, fn)], [(p, jt, jd, some W1)], 3⟩ ∧
    App.screen_resume oc CacheManager.noFaults
        (CacheManager.withScreening
          (CacheManager.withParsed st (CacheManager.hash_file bytes) p)
          (CacheManager.generate_screening_key (CacheManager.hash_file bytes) jt jd)
          s1)
        ⟨some (fn, bytes), some jt, some jd, some w2str⟩ =
      ⟨200, App.screenOkBody p s1 true true (CacheManager.hash_file bytes),
       CacheManager.withScreening
         (CacheManager.withParsed st (CacheManager.hash_file bytes) p)
         (CacheManager.generate_screening_key (CacheManager.hash_file bytes) jt jd)
         s1,
       [], [], 2⟩ := by
  constructor
  · rw [@App.screen_resume_valid oc CacheManager.noFaults st
      ⟨some (fn, bytes), some jt, some jd, some w1str⟩ fn bytes (some W1)
      rfl hname hext hjt hjd (by simp [App.resolveWeights, hl1, Except.map])]
    simp only [Option.getD_some]
    rw [App.screenStages_fullMiss
      (CacheManager.readComplete_none_of_screen_none rfl hsl)
      (by rw [CacheManager.readParsed_none rfl hpl]; rfl) hx hs]
    rfl
  · rw [@App.screen_resume_valid oc CacheManager.noFaults
      (CacheManager.withScreening
        (CacheManager.withParsed st (CacheManager.hash_file bytes) p)
        (CacheManager.generate_screening_key (CacheManager.hash_file bytes) jt jd)
        s1)
      ⟨some (fn, bytes), some jt, some jd, some w2str⟩ fn bytes (some W2)
      rfl hname hext hjt hjd (by simp [App.resolveWeights, hl2, Except.map])]
    simp only [Option.getD_some]
    rw [App.screenStages_complete
      (CacheManager.readComplete_some rfl rfl
        (CacheManager.lookup_upsert _ _ _) (CacheManager.lookup_upsert _ _ _)
        hs1 hptr)]

/-- Witness for C7: two concrete requests differing only in weights; the
second is served the cached result of the first. -/
theorem weight_insensitive_cache_key_witness :
    ([("skills", 1)] : Weights) ≠ [("skills", 0)] ∧
    App.screen_resume oc1 CacheManager.noFaults
        (CacheManager.withScreening
          (CacheManager.withParsed stEmpty (CacheManager.hash_file b0) p0)
          (CacheManager.generate_screening_key (CacheManager.hash_file b0) "t" "d")
          s0)
        ⟨some ("r.pdf", b0), some "t", some "d", some "w2"⟩ =
      ⟨200, App.screenOkBody p0 s0 true true (CacheManager.hash_file b0),
       CacheManager.withScreening
         (CacheManager.withParsed stEmpty (CacheManager.hash_file b0) p0)
         (CacheManager.generate_screening_key (CacheManager.hash_file b0) "t" "d")
         s0,
       [], [], 2⟩ :=
  ⟨by decide,
   (weight_insensitive_cache_key oc1 stEmpty "r.pdf" b0 "t" "d" "w1" "w2"
      [("skills", 1)] [("skills", 0)] p0 s0 (by decide) rfl rfl (by decide)
      (by decide) rfl rfl rfl rfl rfl (by simp [p0]) rfl (by simp [s0])).2⟩

theorem screen_resume_no_file {oc : App.Oracles} {f : CacheManager.StoreFaults}
    {st : CacheManager.CacheState} {req : App.ScreenRequest}
    (h : req.file = none) :
    App.screen_resume oc f st req =
      ⟨400, App.errBody "No file provided", st, [], [], 0⟩ := by
  simp [App.screen_resume, h]

theorem screen_resume_empty_filename {oc : App.Oracles}
    {f : CacheManager.StoreFaults} {st : CacheManager.CacheState}
    {req : App.ScreenRequest} {bytes : List Nat}
    (h : req.file = some ("", bytes)) :
    App.screen_resume oc f st req =
      ⟨400, App.errBody "No file selected", st, [], [], 0⟩ := by
  simp [App.screen_resume, h]

theorem screen_resume_bad_ext {oc : App.Oracles} {f : CacheManager.StoreFaults}
    {st : CacheManager.CacheState} {req : App.ScreenRequest} {fn : String}
    {bytes : List Nat} (h : req.file = some (fn, bytes)) (hname : fn ≠ "")
    (hext : App.hasValidExt fn = false) :
    App.screen_resume oc f st req =
      ⟨400, App.errBody "Invalid file format. Only PDF and DOCX are supported",
       st, [], [], 0⟩ := by
  simp [App.screen_resume, h, hname, hext]

theorem screen_resume_missing_job {oc : App.Oracles}
    {f : CacheManager.StoreFaults} {st : CacheManager.CacheState}
    {req : App.ScreenRequest} {fn : String} {bytes : List Nat}
    (h : req.file = some (fn, bytes)) (hname : fn ≠ "")
    (hext : App.hasValidExt fn = true)
    (hjj : (App.blankField req.job_title || App.blankField req.job_description) =
      true) :
    App.screen_resume oc f st req =
      ⟨400, App.errBody "job_title and job_description are required",
       st, [], [], 0⟩ := by
  simp [App.screen_resume, h, hname, hext, hjj]

theorem screen_resume_loads_error {oc : App.Oracles}
    {f : CacheManager.StoreFaults} {st : CacheManager.CacheState}
    {req : App.ScreenRequest} {fn : String} {bytes : List Nat} {wstr e : String}
    (hfile : req.file = some (fn, bytes)) (hname : fn ≠ "")
    (hext : App.hasValidExt fn = true)
    (hjt : App.blankField req.job_title = false)
    (hjd : App.blankField req.job_description = false)
    (hw : req.weights = some wstr) (hbad : oc.loads wstr = .error e) :
    App.screen_resume oc f st req = ⟨500, App.failBody e, st, [], [], 0⟩ := by
  simp [App.screen_resume, hfile, hname, hext, hjt, hjd, App.resolveWeights,
        hw, hbad, Except.map]

/-- C8 counterexample: a malformed weights field is indeed raised before
any cache read or oracle call, but the response carries the server-error
status 500, not a client-error (4xx) status. -/
theorem malformed_weights_not_client_status :
    App.screen_resume ocBad CacheManager.noFaults stEmpty reqBadW =
      ⟨500, App.failBody "Expecting value", stEmpty, [], [], 0⟩ ∧
    ¬((App.screen_resume ocBad CacheManager.noFaults stEmpty reqBadW).status < 500) ∧
    (App.screen_resume ocBad CacheManager.noFaults stEmpty reqBadW).cacheReads = 0 ∧
    (App.screen_resume ocBad CacheManager.noFaults stEmpty reqBadW).extractLog = [] ∧
    (App.screen_resume ocBad CacheManager.noFaults stEmpty reqBadW).scoreLog = [] := by
  have h : App.screen_resume ocBad CacheManager.noFaults stEmpty reqBadW =
      ⟨500, App.failBody "Expecting value", stEmpty, [], [], 0⟩ :=
    screen_resume_loads_error rfl (by decide) (by decide) rfl rfl rfl rfl
  exact ⟨h, by rw [h]; decide, by rw [h], by rw [h], by rw [h]⟩

/-- C8 (amended): the four form-level client errors (missing file, empty
filename, unsupported extension, missing job fields) are rejected before
any cache lookup or oracle invocation with status 400; a malformed
weights field is likewise raised before any cache lookup or oracle
invocation, but is reported through the generic handler with status 500
rather than a 4xx status. -/
theorem client_input_rejected_before_core
    (oc : App.Oracles) (f : CacheManager.StoreFaults)
    (st : CacheManager.CacheState) (req : App.ScreenRequest)
    (fn : String) (bytes : List Nat) (wstr e : String)
    (hfile : req.file = some (fn, bytes)) (hname : fn ≠ "")
    (hext : App.hasValidExt fn = true)
    (hjt : App.blankField req.job_title = false)
    (hjd : App.blankField req.job_description = false)
    (hw : req.weights = some wstr) (hbad : oc.loads wstr = .error e) :
    App.screen_resume oc f st req = ⟨500, App.failBody e, st, [], [], 0⟩ ∧
    (∀ req2 : App.ScreenRequest, req2.file = none →
       App.screen_resume oc f st req2 =
         ⟨400, App.errBody "No file provided", st, [], [], 0⟩) ∧
    (∀ (req2 : App.ScreenRequest) (bytes2 : List Nat),
       req2.file = some ("", bytes2) →
       App.screen_resume oc f st req2 =
         ⟨400, App.errBody "No file selected", st, [], [], 0⟩) ∧
    (∀ (req2 : App.ScreenRequest) (fn2 : String) (bytes2 : List Nat),
       req2.file = some (fn2, bytes2) → fn2 ≠ "" →
       App.hasValidExt fn2 = false →
       App.screen_resume oc f st req2 =
         ⟨400, App.errBody "Invalid file format. Only PDF and DOCX are supported",
          st, [], [], 0⟩) ∧
    (∀ (req2 : App.ScreenRequest) (fn2 : String) (bytes2 : List Nat),
       req2.file = some (fn2, bytes2) → fn2 ≠ "" →
       App.hasValidExt fn2 = true →
       (App.blankField req2.job_title || App.blankField req2.job_description) =
         true →
       App.screen_resume oc f st req2 =
         ⟨400, App.errBody "job_title and job_description are required",
          st, [], [], 0⟩) :=
  ⟨screen_resume_loads_error hfile hname hext hjt hjd hw hbad,
   fun _ h => screen_resume_no_file h,
   fun _ _ h => screen_resume_empty_filename h,
   fun _ _ _ h h1 h2 => screen_resume_bad_ext h h1 h2,
   fun _ _ _ h h1 h2 h3 => screen_resume_missing_job h h1 h2 h3⟩

/-- Witness for the amended C8 at a concrete malformed-weights request. -/
theorem client_input_rejected_before_core_witness :
    reqBadW.weights = some "x" ∧
    App.screen_resume ocBad CacheManager.noFaults stEmpty reqBadW =
      ⟨500, App.failBody "Expecting value", stEmpty, [], [], 0⟩ :=
  ⟨rfl,
   (client_input_rejected_before_core ocBad CacheManager.noFaults stEmpty
      reqBadW "r.pdf" b0 "x" "Expecting value" rfl (by decide) (by decide)
      rfl rfl rfl rfl).1⟩

theorem envelopeShape_200 (b : Json) : App.envelopeShape 200 b :=
  ⟨fun h => absurd h (by decide), fun h => absurd h (by decide)⟩

theorem envelopeShape_400 (m : String) : App.envelopeShape 400 (App.errBody m) :=
  ⟨fun h => absurd h (by decide), fun _ => ⟨⟨m, rfl⟩, rfl⟩⟩

theorem envelopeShape_500 (m : String) : App.envelopeShape 500 (App.failBody m) :=
  ⟨fun _ => ⟨rfl, ⟨m, rfl⟩⟩, fun h => absurd h (by decide)⟩

theorem parse_resume_envelope (oc : App.Oracles) (f : CacheManager.StoreFaults)
    (st : CacheManager.CacheState) (req : App.ParseRequest) :
    App.envelopeShape (App.parse_resume oc f st req).status
      (App.parse_resume oc f st req).body := by
  unfold App.parse_resume App.parseMiss
  repeat' split
  all_goals first
    | exact envelopeShape_400 _
    | exact envelopeShape_500 _
    | exact envelopeShape_200 _

theorem screen_resume_envelope (oc : App.Oracles) (f : CacheManager.StoreFaults)
    (st : CacheManager.CacheState) (req : App.ScreenRequest) :
    App.envelopeShape (App.screen_resume oc f st req).status
      (App.screen_resume oc f st req).body := by
  unfold App.screen_resume App.screenStages
  repeat' split
  all_goals first
    | exact envelopeShape_400 _
    | exact envelopeShape_500 _
    | exact envelopeShape_200 _

/-- C9 (amended): on both endpoints every 500 failure carries the
structured envelope `success = false` with an error message, while every
400 client rejection is a bare error object without a `success` field. -/
theorem failure_envelope_shape (oc : App.Oracles) (f : CacheManager.StoreFaults)
    (st : CacheManager.CacheState) (reqP : App.ParseRequest)
    (reqS : App.ScreenRequest) :
    App.envelopeShape (App.parse_resume oc f st reqP).status
      (App.parse_resume oc f st reqP).body ∧
    App.envelopeShape (App.screen_resume oc f st reqS).status
      (App.screen_resume oc f st reqS).body :=
  ⟨parse_resume_envelope oc f st reqP, screen_resume_envelope oc f st reqS⟩

/-- C9 counterexample: the client rejection of a file-less request is a
failing (400) response whose body has no `success` field at all, so not
every failure carries the `success = false` envelope. -/
theorem client_rejection_lacks_success_field :
    (App.screen_resume oc0 CacheManager.noFaults stEmpty reqNoFile).status = 400 ∧
    App.jsonField
      (App.screen_resume oc0 CacheManager.noFaults stEmpty reqNoFile).body
      "success" = none ∧
    App.jsonField
      (App.screen_resume oc0 CacheManager.noFaults stEmpty reqNoFile).body
      "success" ≠ some (Json.bool false) := by
  have h2 : App.jsonField
      (App.screen_resume oc0 CacheManager.noFaults stEmpty reqNoFile).body
      "success" = none := rfl
  exact ⟨rfl, h2, fun h => Option.noConfusion (h2 ▸ h)⟩

/-- C10: cache hits are truthiness-based: an empty stored parsed payload
is treated as a miss, so the parse endpoint reports `cached = false` and
re-invokes the Extractor; the complete result is absent whenever the
parsed row is the empty payload even if a screening row exists; and a hit
is only ever reported for a non-empty payload. -/
theorem falsy_payload_is_miss
    (oc : App.Oracles) (f : CacheManager.StoreFaults)
    (st : CacheManager.CacheState) (req : App.ParseRequest)
    (fn : String) (bytes : List Nat) (p : Payload)
    (hf : f.parsedRead = false)
    (hfile : req.file = some (fn, bytes)) (hname : fn ≠ "")
    (hext : App.hasValidExt fn = true)
    (hlook : st.parsed.lookup (CacheManager.hash_file bytes) = some [])
    (hx : oc.extract bytes fn = .ok p) :
    App.parse_resume oc f st req =
      ⟨200, App.parseOkBody p false (CacheManager.hash_file bytes),
       (CacheManager.writeParsed f st (CacheManager.hash_file bytes) p).1,
       [(bytes, fn)], 1⟩ ∧
    (∀ (rawScreen rawParsed : Except String (List Payload)) (s : Payload),
       CacheManager.get_screening_result rawScreen = some s →
       CacheManager.get_parsed_resume rawParsed = some [] →
       CacheManager.get_complete_result rawScreen rawParsed = none) ∧
    (∀ (o : Option Payload) (q : Payload), App.hitPayload o = some q → q ≠ []) := by
  refine ⟨?_, ?_, ?_⟩
  · simp [App.parse_resume, App.parseMiss, hfile, hname, hext,
          CacheManager.readParsed_some hf hlook, App.hitPayload, hx]
  · exact fun rawS rawP s _ hp =>
      CacheManager.get_complete_result_none_of_parsed_empty rawS rawP hp
  · exact fun o q h => App.hitPayload_ne_nil h

/-- Witness for C10 on a concrete state holding an empty parsed payload. -/
theorem falsy_payload_is_miss_witness :
    stEmptyPayload.parsed.lookup (CacheManager.hash_file b0) = some [] ∧
    App.parse_resume oc0 CacheManager.noFaults stEmptyPayload ⟨some ("r.pdf", b0)⟩ =
      ⟨200, App.parseOkBody p0 false (CacheManager.hash_file b0),
       (CacheManager.writeParsed CacheManager.noFaults stEmptyPayload
         (CacheManager.hash_file b0) p0).1,
       [(b0, "r.pdf")], 1⟩ :=
  ⟨by simp [stEmptyPayload, fh0, List.lookup],
   (falsy_payload_is_miss oc0 CacheManager.noFaults stEmptyPayload
      ⟨some ("r.pdf", b0)⟩ "r.pdf" b0 p0 rfl rfl (by decide) (by decide)
      (by simp [stEmptyPayload, fh0, List.lookup]) rfl).1⟩

